import Mathlib

/-!
Verification of `src/TransferLearning/TrainModels.py`.

The file contains three functions: `train_model` (a train/validate loop
runner), `set_parameter_requires_grad` (freezes parameters for feature
extraction), and `initialize_model` (maps a model name to a pretrained
torchvision backbone with its classification head replaced).

Everything the script delegates to the ML framework (forward passes, loss
values, gradient steps, the pretrained model zoo) is abstracted as data:
an environment of functions for `train_model`, and an abstract zoo record
for `initialize_model`.  Real-valued quantities (losses, accuracies) are
modelled as rationals; the literal `0.4` becomes `2/5`.  The `print`
calls are I/O and are dropped; `exit()` is modelled as returning `none`;
Python's in-place mutation of model objects becomes functional update.
-/

namespace TrainModels

/-- Framework-level events emitted while processing one batch, used to
state temporal properties of the loop (`optimizer.zero_grad()`,
`torch.set_grad_enabled(...)`, the forward pass, `loss.backward()`,
`optimizer.step()`). -/
inductive Ev where
  | zero_grad : Ev
  | set_grad_enabled : Bool → Ev
  | forward : Ev
  | backward : Ev
  | opt_step : Ev
  deriving DecidableEq, Repr

/-- `true` exactly on the events that can change the model's weights. -/
def Ev.isUpdate : Ev → Bool
  | .backward => true
  | .opt_step => true
  | _ => false

/-- `true` exactly on an event that turns gradient tracking on. -/
def Ev.gradOn : Ev → Bool
  | .set_grad_enabled b => b
  | _ => false

/-- The ML-framework operations `train_model` calls, abstracted over the
weight state `W` (a `state_dict`) and the batch type `B` (one
`(inputs, labels)` pair from a dataloader).
* `lossOut w b`  is `criterion(model(inputs), labels).item()`;
* `lossAux w b`  is `criterion(aux_outputs, labels).item()` (inception);
* `corrects w b` is `torch.sum(preds == labels.data)` where `preds` comes
  from the final outputs via `torch.max(outputs, 1)`;
* `size b`       is `inputs.size(0)`;
* `gradStep inc w b` is the effect on the weights of `loss.backward()`
  followed by `optimizer.step()`, where `inc` records whether the loss
  that was differentiated was the inception combination. -/
structure TorchEnv (W B : Type) where
  lossOut : W → B → ℚ
  lossAux : W → B → ℚ
  corrects : W → B → ℕ
  size : B → ℕ
  gradStep : Bool → W → B → W

/-- One dataloader: its list of batches and `len(dataloader.dataset)`. -/
structure DataLoader (B : Type) where
  batches : List B
  datasetLen : ℕ

/-- The loss computed for one batch (lines 63-71 of the source):
`loss1 + 0.4*loss2` when `is_inception` and in the training phase,
otherwise `criterion(outputs, labels)`. -/
def batchLoss {W B : Type} (env : TorchEnv W B) (is_inception isTrain : Bool)
    (w : W) (b : B) : ℚ :=
  if is_inception && isTrain then
    env.lossOut w b + 2/5 * env.lossAux w b
  else
    env.lossOut w b

/-- Running state of one phase of one epoch: current weights,
`running_loss`, `running_corrects`, and the trace of framework events
emitted so far. -/
structure PhaseSt (W : Type) where
  w : W
  running_loss : ℚ
  running_corrects : ℕ
  trace : List Ev

/-- The body of the inner loop `for inputs, labels in dataloaders[phase]`
(lines 49-82): zero the gradients, forward under
`set_grad_enabled(phase == train_name)`, compute the loss and the
predictions, backward + optimizer step only in the training phase, then
accumulate `running_loss += loss.item() * inputs.size(0)` and
`running_corrects += torch.sum(preds == labels.data)`. -/
def processBatch {W B : Type} (env : TorchEnv W B) (is_inception isTrain : Bool)
    (st : PhaseSt W) (b : B) : PhaseSt W :=
  let loss := batchLoss env is_inception isTrain st.w b
  let corr := env.corrects st.w b
  let w' := if isTrain then env.gradStep is_inception st.w b else st.w
  let evs := [Ev.zero_grad, Ev.set_grad_enabled isTrain, Ev.forward] ++
    (if isTrain then [Ev.backward, Ev.opt_step] else [])
  { w := w'
    running_loss := st.running_loss + loss * env.size b
    running_corrects := st.running_corrects + corr
    trace := st.trace ++ evs }

/-- One full phase of one epoch, starting from weights `w` with fresh
statistics (lines 45-82). -/
def runPhase {W B : Type} (env : TorchEnv W B) (is_inception isTrain : Bool)
    (batches : List B) (w : W) : PhaseSt W :=
  batches.foldl (processBatch env is_inception isTrain) ⟨w, 0, 0, []⟩

/-- The per-epoch state threaded through `train_model`'s outer loop:
the model's weights and the `best_acc` / `best_model_wts` /
`val_acc_history` bookkeeping. -/
structure EpochState (W : Type) where
  w : W
  best_acc : ℚ
  best_model_wts : W
  val_acc_history : List ℚ

/-- The body of `for phase in [train_name, val_name]` (lines 39-94):
run the phase's batches, form `epoch_acc` by dividing
`running_corrects` by `len(dataloaders[phase].dataset)`, then on the
validation phase update the best snapshot when `epoch_acc > best_acc`
(strict) and append `epoch_acc` to `val_acc_history`. -/
def doPhase {W B : Type} (env : TorchEnv W B) (is_inception : Bool)
    (dataloaders : String → DataLoader B) (train_name val_name : String)
    (st : EpochState W) (phase : String) : EpochState W :=
  let ps := runPhase env is_inception (phase == train_name)
    (dataloaders phase).batches st.w
  let epoch_acc : ℚ := (ps.running_corrects : ℚ) /
    ((dataloaders phase).datasetLen : ℚ)
  let st1 : EpochState W := { st with w := ps.w }
  let st2 : EpochState W :=
    if phase = val_name ∧ epoch_acc > st1.best_acc then
      { st1 with best_acc := epoch_acc, best_model_wts := ps.w }
    else st1
  if phase = val_name then
    { st2 with val_acc_history := st2.val_acc_history ++ [epoch_acc] }
  else st2

/-- One epoch: the training phase followed by the validation phase,
in the order of the list `[train_name, val_name]` (line 39). -/
def runEpoch {W B : Type} (env : TorchEnv W B) (is_inception : Bool)
    (dataloaders : String → DataLoader B) (train_name val_name : String)
    (st : EpochState W) : EpochState W :=
  [train_name, val_name].foldl
    (doPhase env is_inception dataloaders train_name val_name) st

/-- The state after the `for epoch in range(num_epochs)` loop, started
from `best_model_wts = copy.deepcopy(model.state_dict())` and
`best_acc = 0.0` (lines 29-32). -/
def trainFold {W B : Type} (env : TorchEnv W B) (w0 : W)
    (dataloaders : String → DataLoader B) (train_name val_name : String)
    (is_inception : Bool) (num_epochs : ℕ) : EpochState W :=
  (List.range num_epochs).foldl
    (fun st _ => runEpoch env is_inception dataloaders train_name val_name st)
    ⟨w0, 0, w0, []⟩

/-- `train_model` (lines 26-104): run the epochs, then
`model.load_state_dict(best_model_wts)` and
`return model, val_acc_history` — so the weights carried by the
returned model are `best_model_wts`. -/
def train_model {W B : Type} (env : TorchEnv W B) (w0 : W)
    (dataloaders : String → DataLoader B) (train_name val_name : String)
    (num_epochs : ℕ) (is_inception : Bool) : W × List ℚ :=
  let st := trainFold env w0 dataloaders train_name val_name is_inception
    num_epochs
  (st.best_model_wts, st.val_acc_history)

/-! ### Closed-form descriptions of the loop state -/

/-- Weights at the end of epoch `k` (equivalently, after epoch `k`'s
training phase, since validation does not update weights):
`epochW … 0` is the initial weights, and each epoch applies the
training phase to the previous end-of-epoch weights. -/
def epochW {W B : Type} (env : TorchEnv W B) (inc : Bool) (tb : List B)
    (w0 : W) : ℕ → W
  | 0 => w0
  | k + 1 => (runPhase env inc true tb (epochW env inc tb w0 k)).w

/-- Epoch `k`'s validation accuracy: `running_corrects` of the validation
phase run at the end-of-epoch-`k` weights, divided by the validation
dataset's length. -/
def valAcc {W B : Type} (env : TorchEnv W B) (inc : Bool) (tb vb : List B)
    (vlen : ℕ) (w0 : W) (k : ℕ) : ℚ :=
  ((runPhase env inc false vb (epochW env inc tb w0 (k + 1))).running_corrects :
    ℚ) / (vlen : ℚ)

/-- The value of `best_acc` after `k` epochs: starts at `0.0` and is
replaced exactly when an epoch's validation accuracy strictly exceeds
it. -/
def bestAccS {W B : Type} (env : TorchEnv W B) (inc : Bool) (tb vb : List B)
    (vlen : ℕ) (w0 : W) : ℕ → ℚ
  | 0 => 0
  | k + 1 =>
    if valAcc env inc tb vb vlen w0 k > bestAccS env inc tb vb vlen w0 k then
      valAcc env inc tb vb vlen w0 k
    else bestAccS env inc tb vb vlen w0 k

/-- The value of `best_model_wts` after `k` epochs: starts as the copy of
the initial weights and is replaced by the end-of-epoch weights exactly
when `best_acc` is. -/
def bestWtsS {W B : Type} (env : TorchEnv W B) (inc : Bool) (tb vb : List B)
    (vlen : ℕ) (w0 : W) : ℕ → W
  | 0 => w0
  | k + 1 =>
    if valAcc env inc tb vb vlen w0 k > bestAccS env inc tb vb vlen w0 k then
      epochW env inc tb w0 (k + 1)
    else bestWtsS env inc tb vb vlen w0 k

/-- The running per-sample weighted loss sum accumulated by a phase,
written as a direct recursion over the batch list (weights advance only
when `isTrain`). -/
def lossSum {W B : Type} (env : TorchEnv W B) (inc isTrain : Bool) :
    W → List B → ℚ
  | _, [] => 0
  | w, b :: bs =>
    batchLoss env inc isTrain w b * env.size b +
      lossSum env inc isTrain (if isTrain then env.gradStep inc w b else w) bs

/-- The running corrects count accumulated by a phase, as a direct
recursion over the batch list. -/
def corrSum {W B : Type} (env : TorchEnv W B) (inc isTrain : Bool) :
    W → List B → ℕ
  | _, [] => 0
  | w, b :: bs =>
    env.corrects w b +
      corrSum env inc isTrain (if isTrain then env.gradStep inc w b else w) bs

/-- The `epoch_loss` the script computes for a phase (line 84):
`running_loss / len(dataloaders[phase].dataset)`. -/
def phaseLoss {W B : Type} (env : TorchEnv W B) (inc isTrain : Bool)
    (dl : DataLoader B) (w : W) : ℚ :=
  (runPhase env inc isTrain dl.batches w).running_loss / (dl.datasetLen : ℚ)

/-! ### A tiny concrete instantiation, used to exercise the theorems -/

/-- A degenerate concrete environment: weights are one rational, every
batch is `()`, the loss is the weight itself, no prediction is ever
correct, and a gradient step adds one. -/
def demoEnv : TorchEnv ℚ Unit where
  lossOut := fun w _ => w
  lossAux := fun _ _ => 1
  corrects := fun _ _ => 0
  size := fun _ => 1
  gradStep := fun _ w _ => w + 1

/-- Dataloaders for the demo environment: one one-sample batch per
phase. -/
def demoDls : String → DataLoader Unit := fun _ => ⟨[()], 1⟩

/-! ## Model initialization: `set_parameter_requires_grad` and
`initialize_model` (lines 109-188) -/

/-- Origin of a parameter tensor's values: loaded from the pretrained
checkpoint, or freshly initialized. -/
inductive PWeight where
  | pretrained : PWeight
  | fresh : PWeight
  deriving DecidableEq, Repr

/-- One parameter tensor: its `requires_grad` flag and its values,
abstracted to their origin. -/
structure Param where
  requires_grad : Bool
  w : PWeight
  deriving DecidableEq, Repr

/-- A replaceable layer of a torchvision model: an `nn.Linear` or an
`nn.Conv2d`, with its weight and bias parameters. -/
inductive NNLayer where
  | linear (in_features out_features : ℕ) (weight bias : Param)
  | conv2d (in_channels out_channels : ℕ) (kernel_size stride : ℕ × ℕ)
      (weight bias : Param)
  deriving DecidableEq, Repr

def NNLayer.in_features : NNLayer → ℕ
  | .linear i _ _ _ => i
  | .conv2d i _ _ _ _ _ => i

def NNLayer.out_features : NNLayer → ℕ
  | .linear _ o _ _ => o
  | .conv2d _ o _ _ _ _ => o

def NNLayer.params : NNLayer → List Param
  | .linear _ _ w b => [w, b]
  | .conv2d _ _ _ _ w b => [w, b]

def NNLayer.mapParams (f : Param → Param) : NNLayer → NNLayer
  | .linear i o w b => .linear i o (f w) (f b)
  | .conv2d i o k s w b => .conv2d i o k s (f w) (f b)

/-- A freshly constructed parameter: `requires_grad` is `True` by
PyTorch default and the values are newly initialized. -/
def freshParam : Param := ⟨true, .fresh⟩

/-- `nn.Linear(in_features, out_features)`. -/
def nnLinear (inF outF : ℕ) : NNLayer := .linear inF outF freshParam freshParam

/-- `nn.Conv2d(in_channels, out_channels, kernel_size, stride)`. -/
def nnConv2d (inC outC : ℕ) (k s : ℕ × ℕ) : NNLayer :=
  .conv2d inC outC k s freshParam freshParam

/-- `models.resnet18(...)`: the feature-extractor parameters and the
final `fc` layer. -/
structure ResNet where
  features : List Param
  fc : NNLayer
  deriving DecidableEq, Repr

/-- `models.alexnet(...)`: `features` also covers `classifier[0..5]`;
`classifier6` is `classifier[6]`. -/
structure AlexNet where
  features : List Param
  classifier6 : NNLayer
  deriving DecidableEq, Repr

/-- `models.vgg11_bn(...)`: `features` also covers `classifier[0..5]`;
`classifier6` is `classifier[6]`. -/
structure VGG where
  features : List Param
  classifier6 : NNLayer
  deriving DecidableEq, Repr

/-- `models.squeezenet1_0(...)`: `classifier1` is `classifier[1]` (the
final convolution); the other classifier modules carry no parameters. -/
structure SqueezeNet where
  features : List Param
  classifier1 : NNLayer
  num_classes : ℕ
  deriving DecidableEq, Repr

/-- `models.densenet121(...)`: `classifier` is the whole classifier
layer. -/
structure DenseNet where
  features : List Param
  classifier : NNLayer
  deriving DecidableEq, Repr

/-- `models.inception_v3(...)`: `auxLogits_fc` is `AuxLogits.fc`, `fc`
the primary head. -/
structure Inception3 where
  features : List Param
  auxLogits_fc : NNLayer
  fc : NNLayer
  deriving DecidableEq, Repr

/-- The dynamic type of the model object `initialize_model` returns. -/
inductive TVModel where
  | resnet : ResNet → TVModel
  | alexnet : AlexNet → TVModel
  | vgg : VGG → TVModel
  | squeezenet : SqueezeNet → TVModel
  | densenet : DenseNet → TVModel
  | inception : Inception3 → TVModel
  deriving DecidableEq, Repr

/-- `model.parameters()` and functional parameter update, the interface
`set_parameter_requires_grad` needs; the law ties the two together. -/
class HasParams (α : Type) where
  parameters : α → List Param
  mapParams : (Param → Param) → α → α
  parameters_mapParams : ∀ (f : Param → Param) (m : α),
    parameters (mapParams f m) = (parameters m).map f

instance instParamsResNet : HasParams ResNet where
  parameters m := m.features ++ m.fc.params
  mapParams f m := ⟨m.features.map f, m.fc.mapParams f⟩
  parameters_mapParams f m := by
    obtain ⟨fs, fc⟩ := m
    cases fc <;> simp [NNLayer.mapParams, NNLayer.params]

instance instParamsAlexNet : HasParams AlexNet where
  parameters m := m.features ++ m.classifier6.params
  mapParams f m := ⟨m.features.map f, m.classifier6.mapParams f⟩
  parameters_mapParams f m := by
    obtain ⟨fs, c6⟩ := m
    cases c6 <;> simp [NNLayer.mapParams, NNLayer.params]

instance instParamsVGG : HasParams VGG where
  parameters m := m.features ++ m.classifier6.params
  mapParams f m := ⟨m.features.map f, m.classifier6.mapParams f⟩
  parameters_mapParams f m := by
    obtain ⟨fs, c6⟩ := m
    cases c6 <;> simp [NNLayer.mapParams, NNLayer.params]

instance instParamsSqueezeNet : HasParams SqueezeNet where
  parameters m := m.features ++ m.classifier1.params
  mapParams f m := ⟨m.features.map f, m.classifier1.mapParams f, m.num_classes⟩
  parameters_mapParams f m := by
    obtain ⟨fs, c1, nc⟩ := m
    cases c1 <;> simp [NNLayer.mapParams, NNLayer.params]

instance instParamsDenseNet : HasParams DenseNet where
  parameters m := m.features ++ m.classifier.params
  mapParams f m := ⟨m.features.map f, m.classifier.mapParams f⟩
  parameters_mapParams f m := by
    obtain ⟨fs, c⟩ := m
    cases c <;> simp [NNLayer.mapParams, NNLayer.params]

instance instParamsInception3 : HasParams Inception3 where
  parameters m := m.features ++ m.auxLogits_fc.params ++ m.fc.params
  mapParams f m :=
    ⟨m.features.map f, m.auxLogits_fc.mapParams f, m.fc.mapParams f⟩
  parameters_mapParams f m := by
    obtain ⟨fs, aux, fc⟩ := m
    cases aux <;> cases fc <;> simp [NNLayer.mapParams, NNLayer.params]

/-- `set_parameter_requires_grad` (lines 109-112): when
`feature_extracting`, set `requires_grad = False` on every parameter of
the model; otherwise do nothing. -/
def set_parameter_requires_grad {α : Type} [HasParams α] (model : α)
    (feature_extracting : Bool) : α :=
  if feature_extracting then
    HasParams.mapParams (fun p => { p with requires_grad := false }) model
  else model

/-- The torchvision pretrained-model registry the script calls into,
abstracted: each constructor takes the `pretrained` flag and returns the
backbone. -/
structure Models where
  resnet18 : Bool → ResNet
  alexnet : Bool → AlexNet
  vgg11_bn : Bool → VGG
  squeezenet1_0 : Bool → SqueezeNet
  densenet121 : Bool → DenseNet
  inception_v3 : Bool → Inception3

/-- `initialize_model` (lines 119-188): dispatch on `model_name`, fetch
the backbone, optionally freeze its parameters, replace the
classification head with a fresh layer of output dimension
`num_classes`, and return the model with its input size; an
unrecognized name prints an error and calls `exit()`, modelled as
`none`. -/
def initialize_model (models : Models) (model_name : String)
    (num_classes : ℕ) (feature_extract : Bool) (use_pretrained : Bool) :
    Option (TVModel × ℕ) :=
  if model_name = "resnet" then
    let model_ft := models.resnet18 use_pretrained
    let model_ft := set_parameter_requires_grad model_ft feature_extract
    let num_ftrs := model_ft.fc.in_features
    some (.resnet { model_ft with fc := nnLinear num_ftrs num_classes }, 224)
  else if model_name = "alexnet" then
    let model_ft := models.alexnet use_pretrained
    let model_ft := set_parameter_requires_grad model_ft feature_extract
    let num_ftrs := model_ft.classifier6.in_features
    some (.alexnet
      { model_ft with classifier6 := nnLinear num_ftrs num_classes }, 224)
  else if model_name = "vgg" then
    let model_ft := models.vgg11_bn use_pretrained
    let model_ft := set_parameter_requires_grad model_ft feature_extract
    let num_ftrs := model_ft.classifier6.in_features
    some (.vgg
      { model_ft with classifier6 := nnLinear num_ftrs num_classes }, 224)
  else if model_name = "squeezenet" then
    let model_ft := models.squeezenet1_0 use_pretrained
    let model_ft := set_parameter_requires_grad model_ft feature_extract
    some (.squeezenet
      { model_ft with
        classifier1 := nnConv2d 512 num_classes (1, 1) (1, 1)
        num_classes := num_classes }, 224)
  else if model_name = "densenet" then
    let model_ft := models.densenet121 use_pretrained
    let model_ft := set_parameter_requires_grad model_ft feature_extract
    let num_ftrs := model_ft.classifier.in_features
    some (.densenet
      { model_ft with classifier := nnLinear num_ftrs num_classes }, 224)
  else if model_name = "inception" then
    let model_ft := models.inception_v3 use_pretrained
    let model_ft := set_parameter_requires_grad model_ft feature_extract
    let num_ftrs := model_ft.auxLogits_fc.in_features
    let model_ft :=
      { model_ft with auxLogits_fc := nnLinear num_ftrs num_classes }
    let num_ftrs := model_ft.fc.in_features
    some (.inception { model_ft with fc := nnLinear num_ftrs num_classes }, 299)
  else
    none

/-- All parameters outside the replaceable head layer(s). -/
def TVModel.featureParams : TVModel → List Param
  | .resnet m => m.features
  | .alexnet m => m.features
  | .vgg m => m.features
  | .squeezenet m => m.features
  | .densenet m => m.features
  | .inception m => m.features

/-- The parameters of the replaceable head layer(s). -/
def TVModel.headParams : TVModel → List Param
  | .resnet m => m.fc.params
  | .alexnet m => m.classifier6.params
  | .vgg m => m.classifier6.params
  | .squeezenet m => m.classifier1.params
  | .densenet m => m.classifier.params
  | .inception m => m.auxLogits_fc.params ++ m.fc.params

/-- The replaceable head layer(s) themselves. -/
def TVModel.heads : TVModel → List NNLayer
  | .resnet m => [m.fc]
  | .alexnet m => [m.classifier6]
  | .vgg m => [m.classifier6]
  | .squeezenet m => [m.classifier1]
  | .densenet m => [m.classifier]
  | .inception m => [m.auxLogits_fc, m.fc]

/-- Erase a parameter's values, keeping its structure and flag. -/
def stripP (p : Param) : Param := ⟨p.requires_grad, .fresh⟩

def ResNet.strip (m : ResNet) : ResNet := HasParams.mapParams stripP m

def AlexNet.strip (m : AlexNet) : AlexNet := HasParams.mapParams stripP m

def VGG.strip (m : VGG) : VGG := HasParams.mapParams stripP m

def SqueezeNet.strip (m : SqueezeNet) : SqueezeNet :=
  HasParams.mapParams stripP m

def DenseNet.strip (m : DenseNet) : DenseNet := HasParams.mapParams stripP m

def Inception3.strip (m : Inception3) : Inception3 :=
  HasParams.mapParams stripP m

/-- Erase all parameter values of a returned model. -/
def TVModel.strip : TVModel → TVModel
  | .resnet m => .resnet m.strip
  | .alexnet m => .alexnet m.strip
  | .vgg m => .vgg m.strip
  | .squeezenet m => .squeezenet m.strip
  | .densenet m => .densenet m.strip
  | .inception m => .inception m.strip

/-- Erase all parameter values of an `initialize_model` result. -/
def stripResult : Option (TVModel × ℕ) → Option (TVModel × ℕ)
  | some (m, s) => some (m.strip, s)
  | none => none

/-- `true` iff the result is a model whose non-head parameters are all
frozen and whose head parameters all require gradients. -/
def headsFrozenOk : Option (TVModel × ℕ) → Bool
  | some (m, _) =>
    m.featureParams.all (fun p => !p.requires_grad) &&
      m.headParams.all (fun p => p.requires_grad)
  | none => false

/-- `true` iff the result is a model whose every head layer is freshly
constructed with output dimension `n` and gradient-requiring
parameters. -/
def headReplacedOk (n : ℕ) : Option (TVModel × ℕ) → Bool
  | some (m, _) =>
    m.heads.all (fun l =>
      l.out_features == n &&
        l.params.all (fun p => (p.w == PWeight.fresh) && p.requires_grad))
  | none => false

/-- The non-head parameters of a result model (`[]` when the process
exited). -/
def resultFeatureParams : Option (TVModel × ℕ) → List Param
  | some (m, _) => m.featureParams
  | none => []

/-- A concrete zoo carrying each backbone's real torchvision head
dimensions, three feature parameters, and weights determined by the
`pretrained` flag. -/
def demoBackboneParams (p : Bool) : List Param :=
  List.replicate 3 ⟨true, if p then .pretrained else .fresh⟩

/-- A backbone head layer of the concrete zoo. -/
def demoLayer (i o : ℕ) (p : Bool) : NNLayer :=
  .linear i o ⟨true, if p then .pretrained else .fresh⟩
    ⟨true, if p then .pretrained else .fresh⟩

/-- The concrete zoo itself. -/
def demoModels : Models where
  resnet18 := fun p => ⟨demoBackboneParams p, demoLayer 512 1000 p⟩
  alexnet := fun p => ⟨demoBackboneParams p, demoLayer 4096 1000 p⟩
  vgg11_bn := fun p => ⟨demoBackboneParams p, demoLayer 4096 1000 p⟩
  squeezenet1_0 := fun p =>
    ⟨demoBackboneParams p,
      .conv2d 512 1000 (1, 1) (1, 1) ⟨true, if p then .pretrained else .fresh⟩
        ⟨true, if p then .pretrained else .fresh⟩, 1000⟩
  densenet121 := fun p => ⟨demoBackboneParams p, demoLayer 1024 1000 p⟩
  inception_v3 := fun p =>
    ⟨demoBackboneParams p, demoLayer 768 1000 p, demoLayer 2048 1000 p⟩

/-! ### Lemmas about one phase -/

theorem foldl_processBatch_w_false {W B : Type} (env : TorchEnv W B)
    (inc : Bool) (bs : List B) (st : PhaseSt W) :
    (bs.foldl (processBatch env inc false) st).w = st.w := by
  induction bs generalizing st with
  | nil => rfl
  | cons b bs ih => rw [List.foldl_cons, ih]; rfl

theorem runPhase_false_w {W B : Type} (env : TorchEnv W B) (inc : Bool)
    (bs : List B) (w : W) : (runPhase env inc false bs w).w = w :=
  foldl_processBatch_w_false env inc bs _

theorem foldl_processBatch_loss {W B : Type} (env : TorchEnv W B)
    (inc it : Bool) (bs : List B) (st : PhaseSt W) :
    (bs.foldl (processBatch env inc it) st).running_loss =
      st.running_loss + lossSum env inc it st.w bs := by
  induction bs generalizing st with
  | nil => simp [lossSum]
  | cons b bs ih =>
    rw [List.foldl_cons, ih]
    simp only [processBatch, lossSum]
    ring

theorem foldl_processBatch_corr {W B : Type} (env : TorchEnv W B)
    (inc it : Bool) (bs : List B) (st : PhaseSt W) :
    (bs.foldl (processBatch env inc it) st).running_corrects =
      st.running_corrects + corrSum env inc it st.w bs := by
  induction bs generalizing st with
  | nil => simp [corrSum]
  | cons b bs ih =>
    rw [List.foldl_cons, ih]
    simp only [processBatch, corrSum]
    omega

theorem runPhase_running_loss {W B : Type} (env : TorchEnv W B) (inc it : Bool)
    (bs : List B) (w : W) :
    (runPhase env inc it bs w).running_loss = lossSum env inc it w bs := by
  rw [runPhase, foldl_processBatch_loss]; simp

theorem runPhase_running_corrects {W B : Type} (env : TorchEnv W B)
    (inc it : Bool) (bs : List B) (w : W) :
    (runPhase env inc it bs w).running_corrects = corrSum env inc it w bs := by
  rw [runPhase, foldl_processBatch_corr]; simp

/-- In a non-training phase, the loss recursion is a plain sum of
`criterion(model(inputs), labels) * inputs.size(0)` at fixed weights. -/
theorem lossSum_false {W B : Type} (env : TorchEnv W B) (inc : Bool)
    (bs : List B) (w : W) :
    lossSum env inc false w bs =
      (bs.map (fun b => env.lossOut w b * (env.size b : ℚ))).sum := by
  induction bs with
  | nil => simp [lossSum]
  | cons b bs ih => simp [lossSum, batchLoss, ih]

/-- In a non-training phase, the corrects recursion is a plain sum of
per-batch corrects at fixed weights. -/
theorem corrSum_false {W B : Type} (env : TorchEnv W B) (inc : Bool)
    (bs : List B) (w : W) :
    corrSum env inc false w bs = (bs.map (env.corrects w)).sum := by
  induction bs with
  | nil => simp [corrSum]
  | cons b bs ih => simp [corrSum, ih]

/-- Every event emitted by a non-training phase leaves gradient tracking
off and is neither `loss.backward()` nor `optimizer.step()`. -/
theorem foldl_processBatch_false_trace {W B : Type} (env : TorchEnv W B)
    (inc : Bool) (bs : List B) (st : PhaseSt W) :
    (bs.foldl (processBatch env inc false) st).trace.all
        (fun e => !e.isUpdate && !e.gradOn) =
      st.trace.all (fun e => !e.isUpdate && !e.gradOn) := by
  induction bs generalizing st with
  | nil => rfl
  | cons b bs ih =>
    rw [List.foldl_cons, ih]
    simp [processBatch, Ev.isUpdate, Ev.gradOn]

/-! ### Lemmas about one epoch and the epoch fold -/

/-- With distinct phase names, one epoch maps the state as follows: the
training phase advances the weights, the validation phase computes
`epoch_acc` at the new weights without touching them, the best snapshot
updates on strict improvement, and `epoch_acc` is appended to the
history. -/
theorem runEpoch_spec {W B : Type} (env : TorchEnv W B) (inc : Bool)
    (dls : String → DataLoader B) (tn vn : String) (h : tn ≠ vn)
    (st : EpochState W) :
    runEpoch env inc dls tn vn st =
      { w := (runPhase env inc true (dls tn).batches st.w).w
        best_acc :=
          if ((runPhase env inc false (dls vn).batches
                (runPhase env inc true (dls tn).batches st.w).w).running_corrects
                : ℚ) / ((dls vn).datasetLen : ℚ) > st.best_acc then
            ((runPhase env inc false (dls vn).batches
                (runPhase env inc true (dls tn).batches st.w).w).running_corrects
                : ℚ) / ((dls vn).datasetLen : ℚ)
          else st.best_acc
        best_model_wts :=
          if ((runPhase env inc false (dls vn).batches
                (runPhase env inc true (dls tn).batches st.w).w).running_corrects
                : ℚ) / ((dls vn).datasetLen : ℚ) > st.best_acc then
            (runPhase env inc true (dls tn).batches st.w).w
          else st.best_model_wts
        val_acc_history := st.val_acc_history ++
          [((runPhase env inc false (dls vn).batches
              (runPhase env inc true (dls tn).batches st.w).w).running_corrects
              : ℚ) / ((dls vn).datasetLen : ℚ)] } := by
  have htt : (tn == tn) = true := beq_self_eq_true tn
  have hvt : (vn == tn) = false := beq_eq_false_iff_ne.mpr (Ne.symm h)
  have hw : (runPhase env inc false (dls vn).batches
      (runPhase env inc true (dls tn).batches st.w).w).w =
      (runPhase env inc true (dls tn).batches st.w).w :=
    runPhase_false_w env inc _ _
  show doPhase env inc dls tn vn (doPhase env inc dls tn vn st tn) vn = _
  by_cases hacc : ((runPhase env inc false (dls vn).batches
      (runPhase env inc true (dls tn).batches st.w).w).running_corrects : ℚ) /
      ((dls vn).datasetLen : ℚ) > st.best_acc
  · simp [doPhase, htt, hvt, h, hacc, hw]
  · simp [doPhase, htt, hvt, h, hacc, hw]

/-- The full `for epoch in range(num_epochs)` fold computes exactly the
closed-form state `(epochW, bestAccS, bestWtsS, map valAcc)`. -/
theorem trainFold_spec {W B : Type} (env : TorchEnv W B) (inc : Bool)
    (dls : String → DataLoader B) (tn vn : String) (w0 : W) (h : tn ≠ vn)
    (n : ℕ) :
    trainFold env w0 dls tn vn inc n =
      { w := epochW env inc (dls tn).batches w0 n
        best_acc := bestAccS env inc (dls tn).batches (dls vn).batches
          (dls vn).datasetLen w0 n
        best_model_wts := bestWtsS env inc (dls tn).batches (dls vn).batches
          (dls vn).datasetLen w0 n
        val_acc_history := (List.range n).map
          (valAcc env inc (dls tn).batches (dls vn).batches
            (dls vn).datasetLen w0) } := by
  induction n with
  | zero => rfl
  | succ k ih =>
    rw [trainFold, List.range_succ, List.foldl_append]
    rw [show (List.range k).foldl
        (fun st _ => runEpoch env inc dls tn vn st) ⟨w0, 0, w0, []⟩ =
        trainFold env w0 dls tn vn inc k from rfl, ih]
    rw [List.foldl_cons, List.foldl_nil, runEpoch_spec env inc dls tn vn h]
    have hw : (runPhase env inc true (dls tn).batches
        (epochW env inc (dls tn).batches w0 k)).w =
        epochW env inc (dls tn).batches w0 (k + 1) := rfl
    rw [hw]
    have hacc : ((runPhase env inc false (dls vn).batches
        (epochW env inc (dls tn).batches w0 (k + 1))).running_corrects : ℚ) /
        ((dls vn).datasetLen : ℚ) =
        valAcc env inc (dls tn).batches (dls vn).batches
          (dls vn).datasetLen w0 k := rfl
    rw [hacc, List.map_append]
    by_cases hc : valAcc env inc (dls tn).batches (dls vn).batches
        (dls vn).datasetLen w0 k >
        bestAccS env inc (dls tn).batches (dls vn).batches
          (dls vn).datasetLen w0 k
    · simp [bestAccS, bestWtsS, hc]
    · simp [bestAccS, bestWtsS, hc]

/-! ### Properties of the best-snapshot recursions -/

theorem bestAccS_succ {W B : Type} (env : TorchEnv W B) (inc : Bool)
    (tb vb : List B) (vlen : ℕ) (w0 : W) (k : ℕ) :
    bestAccS env inc tb vb vlen w0 (k + 1) =
      if valAcc env inc tb vb vlen w0 k > bestAccS env inc tb vb vlen w0 k
      then valAcc env inc tb vb vlen w0 k
      else bestAccS env inc tb vb vlen w0 k := rfl

theorem bestWtsS_succ {W B : Type} (env : TorchEnv W B) (inc : Bool)
    (tb vb : List B) (vlen : ℕ) (w0 : W) (k : ℕ) :
    bestWtsS env inc tb vb vlen w0 (k + 1) =
      if valAcc env inc tb vb vlen w0 k > bestAccS env inc tb vb vlen w0 k
      then epochW env inc tb w0 (k + 1)
      else bestWtsS env inc tb vb vlen w0 k := rfl

theorem bestAccS_eq_foldl_max {W B : Type} (env : TorchEnv W B) (inc : Bool)
    (tb vb : List B) (vlen : ℕ) (w0 : W) (k : ℕ) :
    bestAccS env inc tb vb vlen w0 k =
      ((List.range k).map (valAcc env inc tb vb vlen w0)).foldl max 0 := by
  induction k with
  | zero => rfl
  | succ k ih =>
    rw [List.range_succ, List.map_append, List.foldl_append]
    simp only [List.map_cons, List.map_nil, List.foldl_cons, List.foldl_nil]
    rw [← ih, bestAccS_succ]
    rcases lt_or_ge (bestAccS env inc tb vb vlen w0 k)
        (valAcc env inc tb vb vlen w0 k) with hlt | hge
    · rw [if_pos hlt, max_eq_right hlt.le]
    · rw [if_neg (not_lt.mpr hge), max_eq_left hge]

theorem bestWtsS_cases {W B : Type} (env : TorchEnv W B) (inc : Bool)
    (tb vb : List B) (vlen : ℕ) (w0 : W) (k : ℕ) :
    (bestWtsS env inc tb vb vlen w0 k = w0 ∧
      bestAccS env inc tb vb vlen w0 k = 0) ∨
    ∃ j, j < k ∧
      valAcc env inc tb vb vlen w0 j = bestAccS env inc tb vb vlen w0 k ∧
      bestWtsS env inc tb vb vlen w0 k = epochW env inc tb w0 (j + 1) := by
  induction k with
  | zero => exact Or.inl ⟨rfl, rfl⟩
  | succ k ih =>
    by_cases hc : valAcc env inc tb vb vlen w0 k >
        bestAccS env inc tb vb vlen w0 k
    · refine Or.inr ⟨k, k.lt_succ_self, ?_, ?_⟩
      · rw [bestAccS_succ, if_pos hc]
      · rw [bestWtsS_succ, if_pos hc]
    · rcases ih with ⟨hw, ha⟩ | ⟨j, hj, hacc, hwts⟩
      · exact Or.inl ⟨by rw [bestWtsS_succ, if_neg hc]; exact hw,
          by rw [bestAccS_succ, if_neg hc]; exact ha⟩
      · exact Or.inr ⟨j, hj.trans k.lt_succ_self,
          by rw [bestAccS_succ, if_neg hc]; exact hacc,
          by rw [bestWtsS_succ, if_neg hc]; exact hwts⟩

theorem bestS_of_no_improvement {W B : Type} (env : TorchEnv W B) (inc : Bool)
    (tb vb : List B) (vlen : ℕ) (w0 : W) (k : ℕ)
    (hz : ∀ j, j < k → valAcc env inc tb vb vlen w0 j ≤ 0) :
    bestAccS env inc tb vb vlen w0 k = 0 ∧
      bestWtsS env inc tb vb vlen w0 k = w0 := by
  induction k with
  | zero => exact ⟨rfl, rfl⟩
  | succ k ih =>
    obtain ⟨ha, hw⟩ := ih (fun j hj => hz j (hj.trans k.lt_succ_self))
    have hc : ¬ valAcc env inc tb vb vlen w0 k >
        bestAccS env inc tb vb vlen w0 k := by
      rw [ha]; exact not_lt.mpr (hz k k.lt_succ_self)
    exact ⟨by rw [bestAccS_succ, if_neg hc]; exact ha,
      by rw [bestWtsS_succ, if_neg hc]; exact hw⟩

theorem doPhase_val_w {W B : Type} (env : TorchEnv W B) (inc : Bool)
    (dls : String → DataLoader B) (tn vn : String) (h : tn ≠ vn)
    (st : EpochState W) : (doPhase env inc dls tn vn st vn).w = st.w := by
  have hvt : (vn == tn) = false := beq_eq_false_iff_ne.mpr (Ne.symm h)
  simp only [doPhase, hvt]
  split_ifs <;> simp [runPhase_false_w]

/-! ### Claim theorems for `train_model` -/

/-- C1: in `train_model`, `best_acc` starts at `0.0` with `best_model_wts`
a deep copy of the initial weights; after each epoch, `best_acc` equals
the maximum (with floor `0`) of all validation accuracies seen so far,
and `best_model_wts` is either still the initial copy (with
`best_acc = 0`) or the model's weights at the end of an epoch whose
validation accuracy equals `best_acc`; the model returned by
`train_model` carries `best_model_wts`. -/
theorem best_snapshot_invariant {W B : Type} (env : TorchEnv W B)
    (inc : Bool) (dls : String → DataLoader B) (tn vn : String) (w0 : W)
    (n : ℕ) (h : tn ≠ vn) :
    trainFold env w0 dls tn vn inc 0 = ⟨w0, 0, w0, []⟩ ∧
    (∀ k, (trainFold env w0 dls tn vn inc k).best_acc =
      ((List.range k).map (valAcc env inc (dls tn).batches (dls vn).batches
        (dls vn).datasetLen w0)).foldl max 0) ∧
    (∀ k, ((trainFold env w0 dls tn vn inc k).best_model_wts = w0 ∧
        (trainFold env w0 dls tn vn inc k).best_acc = 0) ∨
      ∃ j, j < k ∧
        valAcc env inc (dls tn).batches (dls vn).batches (dls vn).datasetLen
          w0 j = (trainFold env w0 dls tn vn inc k).best_acc ∧
        (trainFold env w0 dls tn vn inc k).best_model_wts =
          epochW env inc (dls tn).batches w0 (j + 1)) ∧
    (train_model env w0 dls tn vn n inc).1 =
      (trainFold env w0 dls tn vn inc n).best_model_wts := by
  refine ⟨rfl, fun k => ?_, fun k => ?_, rfl⟩
  · rw [trainFold_spec env inc dls tn vn w0 h k]
    exact bestAccS_eq_foldl_max env inc (dls tn).batches (dls vn).batches
      (dls vn).datasetLen w0 k
  · rw [trainFold_spec env inc dls tn vn w0 h k]
    exact bestWtsS_cases env inc (dls tn).batches (dls vn).batches
      (dls vn).datasetLen w0 k

/-- Witness: `best_snapshot_invariant` applied at the concrete demo
instantiation, with its hypothesis discharged. -/
theorem best_snapshot_invariant_witness :
    (("train" : String) ≠ "val") ∧
    (trainFold demoEnv (0 : ℚ) demoDls "train" "val" false 0 =
      ⟨0, 0, 0, []⟩ ∧
    (∀ k, (trainFold demoEnv (0 : ℚ) demoDls "train" "val" false k).best_acc =
      ((List.range k).map (valAcc demoEnv false (demoDls "train").batches
        (demoDls "val").batches (demoDls "val").datasetLen
        (0 : ℚ))).foldl max 0) ∧
    (∀ k, ((trainFold demoEnv (0 : ℚ) demoDls "train" "val"
          false k).best_model_wts = 0 ∧
        (trainFold demoEnv (0 : ℚ) demoDls "train" "val" false k).best_acc =
          0) ∨
      ∃ j, j < k ∧
        valAcc demoEnv false (demoDls "train").batches
          (demoDls "val").batches (demoDls "val").datasetLen (0 : ℚ) j =
          (trainFold demoEnv (0 : ℚ) demoDls "train" "val"
            false k).best_acc ∧
        (trainFold demoEnv (0 : ℚ) demoDls "train" "val"
          false k).best_model_wts =
          epochW demoEnv false (demoDls "train").batches (0 : ℚ) (j + 1)) ∧
    (train_model demoEnv (0 : ℚ) demoDls "train" "val" 2 false).1 =
      (trainFold demoEnv (0 : ℚ) demoDls "train" "val"
        false 2).best_model_wts) :=
  ⟨by decide, best_snapshot_invariant demoEnv false demoDls "train" "val"
    (0 : ℚ) 2 (by decide)⟩

/-- C4: `train_model` runs exactly `num_epochs` epochs and returns the
validation-accuracy history with one entry per epoch, appended in epoch
order; entry `k` is epoch `k`'s correct-prediction count over the
validation set divided by the validation dataset's length, and a phase's
`epoch_loss` is the running per-sample loss sum divided by the dataset's
length. -/
theorem train_model_history {W B : Type} (env : TorchEnv W B) (inc : Bool)
    (dls : String → DataLoader B) (tn vn : String) (w0 : W) (n : ℕ)
    (h : tn ≠ vn) :
    (train_model env w0 dls tn vn n inc).2 =
      (List.range n).map (valAcc env inc (dls tn).batches (dls vn).batches
        (dls vn).datasetLen w0) ∧
    ((train_model env w0 dls tn vn n inc).2).length = n ∧
    (trainFold env w0 dls tn vn inc n).w =
      epochW env inc (dls tn).batches w0 n ∧
    (∀ k, valAcc env inc (dls tn).batches (dls vn).batches
        (dls vn).datasetLen w0 k =
      ((((dls vn).batches.map (env.corrects
          (epochW env inc (dls tn).batches w0 (k + 1)))).sum : ℕ) : ℚ) /
        ((dls vn).datasetLen : ℚ)) ∧
    (∀ (it : Bool) (dl : DataLoader B) (w : W),
      phaseLoss env inc it dl w =
        lossSum env inc it w dl.batches / (dl.datasetLen : ℚ)) := by
  refine ⟨?_, ?_, ?_, fun k => ?_, fun it dl w => ?_⟩
  · show (trainFold env w0 dls tn vn inc n).val_acc_history = _
    rw [trainFold_spec env inc dls tn vn w0 h n]
  · show (trainFold env w0 dls tn vn inc n).val_acc_history.length = n
    rw [trainFold_spec env inc dls tn vn w0 h n]
    simp
  · rw [trainFold_spec env inc dls tn vn w0 h n]
  · simp only [valAcc, runPhase_running_corrects, corrSum_false]
  · simp only [phaseLoss, runPhase_running_loss]

/-- Witness: `train_model_history` applied at the concrete demo
instantiation, with its hypothesis discharged. -/
theorem train_model_history_witness :
    (("train" : String) ≠ "val") ∧
    ((train_model demoEnv (0 : ℚ) demoDls "train" "val" 2 false).2 =
      (List.range 2).map (valAcc demoEnv false (demoDls "train").batches
        (demoDls "val").batches (demoDls "val").datasetLen (0 : ℚ)) ∧
    ((train_model demoEnv (0 : ℚ) demoDls "train" "val" 2 false).2).length =
      2 ∧
    (trainFold demoEnv (0 : ℚ) demoDls "train" "val" false 2).w =
      epochW demoEnv false (demoDls "train").batches (0 : ℚ) 2 ∧
    (∀ k, valAcc demoEnv false (demoDls "train").batches
        (demoDls "val").batches (demoDls "val").datasetLen (0 : ℚ) k =
      ((((demoDls "val").batches.map (demoEnv.corrects
          (epochW demoEnv false (demoDls "train").batches (0 : ℚ)
            (k + 1)))).sum : ℕ) : ℚ) /
        (((demoDls "val").datasetLen : ℕ) : ℚ)) ∧
    (∀ (it : Bool) (dl : DataLoader Unit) (w : ℚ),
      phaseLoss demoEnv false it dl w =
        lossSum demoEnv false it w dl.batches / (dl.datasetLen : ℚ))) :=
  ⟨by decide, train_model_history demoEnv false demoDls "train" "val"
    (0 : ℚ) 2 (by decide)⟩

/-- C6: each epoch runs the training phase strictly before the validation
phase; the validation phase leaves the model's weights unchanged, and
every event it emits has gradient tracking off and is neither
`loss.backward()` nor `optimizer.step()`. -/
theorem train_phase_precedes_val {W B : Type} (env : TorchEnv W B)
    (inc : Bool) (dls : String → DataLoader B) (tn vn : String) (w : W)
    (st : EpochState W) (h : tn ≠ vn) :
    runEpoch env inc dls tn vn st =
      doPhase env inc dls tn vn (doPhase env inc dls tn vn st tn) vn ∧
    (doPhase env inc dls tn vn st vn).w = st.w ∧
    ((runPhase env inc (vn == tn) (dls vn).batches w).trace.all
      (fun e => !e.isUpdate && !e.gradOn)) = true := by
  refine ⟨rfl, doPhase_val_w env inc dls tn vn h st, ?_⟩
  have hvt : (vn == tn) = false := beq_eq_false_iff_ne.mpr (Ne.symm h)
  rw [hvt, runPhase, foldl_processBatch_false_trace]
  rfl

/-- Witness: `train_phase_precedes_val` applied at the concrete demo
instantiation, with its hypothesis discharged. -/
theorem train_phase_precedes_val_witness :
    (("train" : String) ≠ "val") ∧
    (runEpoch demoEnv false demoDls "train" "val" ⟨0, 0, 0, []⟩ =
      doPhase demoEnv false demoDls "train" "val"
        (doPhase demoEnv false demoDls "train" "val" ⟨0, 0, 0, []⟩ "train")
        "val" ∧
    (doPhase demoEnv false demoDls "train" "val" ⟨0, 0, 0, []⟩ "val").w =
      (⟨0, 0, 0, []⟩ : EpochState ℚ).w ∧
    ((runPhase demoEnv false ("val" == "train") (demoDls "val").batches
      (1 : ℚ)).trace.all (fun e => !e.isUpdate && !e.gradOn)) = true) :=
  ⟨by decide, train_phase_precedes_val demoEnv false demoDls "train" "val"
    (1 : ℚ) ⟨0, 0, 0, []⟩ (by decide)⟩

/-- C8: with the strict-improvement update starting from `best_acc = 0.0`,
if `num_epochs` is `0` or no epoch's validation accuracy is strictly
positive, the returned model carries the initial weights and the best
accuracy stays `0`; in particular an epoch with accuracy exactly `0`
never replaces the snapshot. -/
theorem no_improvement_returns_initial {W B : Type} (env : TorchEnv W B)
    (inc : Bool) (dls : String → DataLoader B) (tn vn : String) (w0 : W)
    (n : ℕ) (h : tn ≠ vn)
    (hz : n = 0 ∨ ∀ k, k < n → valAcc env inc (dls tn).batches
      (dls vn).batches (dls vn).datasetLen w0 k ≤ 0) :
    (train_model env w0 dls tn vn n inc).1 = w0 ∧
    (trainFold env w0 dls tn vn inc n).best_acc = 0 := by
  have hz' : ∀ k, k < n → valAcc env inc (dls tn).batches (dls vn).batches
      (dls vn).datasetLen w0 k ≤ 0 := by
    rcases hz with rfl | hz
    · intro k hk; exact absurd hk (Nat.not_lt_zero k)
    · exact hz
  obtain ⟨ha, hw⟩ := bestS_of_no_improvement env inc (dls tn).batches
    (dls vn).batches (dls vn).datasetLen w0 n hz'
  constructor
  · show (trainFold env w0 dls tn vn inc n).best_model_wts = w0
    rw [trainFold_spec env inc dls tn vn w0 h n]
    exact hw
  · rw [trainFold_spec env inc dls tn vn w0 h n]
    exact ha

/-- Witness: `no_improvement_returns_initial` applied at the concrete demo
instantiation (two epochs, every validation accuracy `0`), with its
hypotheses discharged. -/
theorem no_improvement_returns_initial_witness :
    ((("train" : String) ≠ "val") ∧
      ((2 : ℕ) = 0 ∨ ∀ k, k < 2 → valAcc demoEnv false
        (demoDls "train").batches (demoDls "val").batches
        (demoDls "val").datasetLen (3 : ℚ) k ≤ 0)) ∧
    ((train_model demoEnv (3 : ℚ) demoDls "train" "val" 2 false).1 = 3 ∧
     (trainFold demoEnv (3 : ℚ) demoDls "train" "val" false 2).best_acc =
       0) :=
  have hva : ∀ k, k < 2 → valAcc demoEnv false (demoDls "train").batches
      (demoDls "val").batches (demoDls "val").datasetLen (3 : ℚ) k ≤ 0 := by
    intro k _
    simp [valAcc, runPhase, processBatch, demoEnv, demoDls]
  ⟨⟨by decide, Or.inr hva⟩,
    no_improvement_returns_initial demoEnv false demoDls "train" "val"
      (3 : ℚ) 2 (by decide) (Or.inr hva)⟩

/-- C9: with `is_inception` true, a training-phase batch contributes
`loss1 + 0.4*loss2` (final-output loss plus `2/5` of the
auxiliary-output loss) to the running loss; the corrects count always
comes from the final outputs alone; in the validation phase, and
whenever `is_inception` is false, only the final output's loss is
used. -/
theorem inception_loss_combination {W B : Type} (env : TorchEnv W B)
    (inc it : Bool) (st : PhaseSt W) (b : B) (w : W) (bs : List B) :
    (processBatch env true true st b).running_loss =
      st.running_loss +
        (env.lossOut st.w b + 2/5 * env.lossAux st.w b) * (env.size b : ℚ) ∧
    (processBatch env inc it st b).running_corrects =
      st.running_corrects + env.corrects st.w b ∧
    (processBatch env inc false st b).running_loss =
      st.running_loss + env.lossOut st.w b * (env.size b : ℚ) ∧
    (processBatch env false it st b).running_loss =
      st.running_loss + env.lossOut st.w b * (env.size b : ℚ) ∧
    (runPhase env inc false bs w).running_loss =
      (bs.map (fun x => env.lossOut w x * (env.size x : ℚ))).sum := by
  refine ⟨?_, rfl, ?_, ?_, ?_⟩
  · simp [processBatch, batchLoss]
  · simp [processBatch, batchLoss]
  · cases it <;> simp [processBatch, batchLoss]
  · rw [runPhase_running_loss, lossSum_false]

/-! ### Claim theorems for `initialize_model` -/

/-- C2: `initialize_model` terminates the process (returns no model)
exactly on model names outside the six recognized ones, via the single
trailing else branch; every recognized name returns normally without
exiting. -/
theorem initialize_model_exit_iff (models : Models) (model_name : String)
    (num_classes : ℕ) (feature_extract use_pretrained : Bool) :
    initialize_model models model_name num_classes feature_extract
        use_pretrained = none ↔
      model_name ∉ (["resnet", "alexnet", "vgg", "squeezenet", "densenet",
        "inception"] : List String) := by
  unfold initialize_model
  split_ifs with h1 h2 h3 h4 h5 h6 <;> simp_all

/-- C3: for each recognized name, `initialize_model` returns the fetched
backbone (after the optional freeze) with its final classification
layer replaced by a freshly constructed layer of output dimension
`num_classes` — for inception both `AuxLogits.fc` and `fc`, for
squeezenet the classifier convolution together with the `num_classes`
attribute — paired with the model's input size; every head layer of
each result is fresh with output dimension `num_classes`. -/
theorem initialize_model_replaces_head (models : Models) (n : ℕ)
    (fe up : Bool) :
    (initialize_model models "resnet" n fe up =
      some (.resnet
        { set_parameter_requires_grad (models.resnet18 up) fe with
          fc := nnLinear (set_parameter_requires_grad (models.resnet18 up)
            fe).fc.in_features n }, 224)) ∧
    (initialize_model models "alexnet" n fe up =
      some (.alexnet
        { set_parameter_requires_grad (models.alexnet up) fe with
          classifier6 := nnLinear (set_parameter_requires_grad
            (models.alexnet up) fe).classifier6.in_features n }, 224)) ∧
    (initialize_model models "vgg" n fe up =
      some (.vgg
        { set_parameter_requires_grad (models.vgg11_bn up) fe with
          classifier6 := nnLinear (set_parameter_requires_grad
            (models.vgg11_bn up) fe).classifier6.in_features n }, 224)) ∧
    (initialize_model models "squeezenet" n fe up =
      some (.squeezenet
        { set_parameter_requires_grad (models.squeezenet1_0 up) fe with
          classifier1 := nnConv2d 512 n (1, 1) (1, 1)
          num_classes := n }, 224)) ∧
    (initialize_model models "densenet" n fe up =
      some (.densenet
        { set_parameter_requires_grad (models.densenet121 up) fe with
          classifier := nnLinear (set_parameter_requires_grad
            (models.densenet121 up) fe).classifier.in_features n }, 224)) ∧
    (initialize_model models "inception" n fe up =
      some (.inception
        { set_parameter_requires_grad (models.inception_v3 up) fe with
          auxLogits_fc := nnLinear (set_parameter_requires_grad
            (models.inception_v3 up) fe).auxLogits_fc.in_features n
          fc := nnLinear (set_parameter_requires_grad
            (models.inception_v3 up) fe).fc.in_features n }, 299)) ∧
    (headReplacedOk n (initialize_model models "resnet" n fe up) = true) ∧
    (headReplacedOk n (initialize_model models "alexnet" n fe up) = true) ∧
    (headReplacedOk n (initialize_model models "vgg" n fe up) = true) ∧
    (headReplacedOk n (initialize_model models "squeezenet" n fe up) =
      true) ∧
    (headReplacedOk n (initialize_model models "densenet" n fe up) = true) ∧
    (headReplacedOk n (initialize_model models "inception" n fe up) =
      true) := by
  refine ⟨rfl, rfl, rfl, rfl, rfl, rfl, ?_, ?_, ?_, ?_, ?_, ?_⟩ <;>
    simp [initialize_model, headReplacedOk, TVModel.heads, nnLinear,
      nnConv2d, freshParam, NNLayer.params, NNLayer.out_features]

/-- C5: with `feature_extract` true, `initialize_model` freezes every
backbone parameter via `set_parameter_requires_grad` before replacing
the head, so in the returned model exactly the freshly constructed head
parameters have `requires_grad` on; with `feature_extract` false no
parameter flag is touched: the backbone parameters come out exactly as
the zoo produced them. -/
theorem initialize_model_freeze (models : Models) (n : ℕ) (up : Bool) :
    (headsFrozenOk (initialize_model models "resnet" n true up) = true) ∧
    (headsFrozenOk (initialize_model models "alexnet" n true up) = true) ∧
    (headsFrozenOk (initialize_model models "vgg" n true up) = true) ∧
    (headsFrozenOk (initialize_model models "squeezenet" n true up) =
      true) ∧
    (headsFrozenOk (initialize_model models "densenet" n true up) = true) ∧
    (headsFrozenOk (initialize_model models "inception" n true up) =
      true) ∧
    (resultFeatureParams (initialize_model models "resnet" n false up) =
      (models.resnet18 up).features) ∧
    (resultFeatureParams (initialize_model models "alexnet" n false up) =
      (models.alexnet up).features) ∧
    (resultFeatureParams (initialize_model models "vgg" n false up) =
      (models.vgg11_bn up).features) ∧
    (resultFeatureParams (initialize_model models "squeezenet" n false up) =
      (models.squeezenet1_0 up).features) ∧
    (resultFeatureParams (initialize_model models "densenet" n false up) =
      (models.densenet121 up).features) ∧
    (resultFeatureParams (initialize_model models "inception" n false up) =
      (models.inception_v3 up).features) := by
  refine ⟨?_, ?_, ?_, ?_, ?_, ?_, rfl, rfl, rfl, rfl, rfl, rfl⟩ <;>
    simp [initialize_model, headsFrozenOk, TVModel.featureParams,
      TVModel.headParams, set_parameter_requires_grad, HasParams.mapParams,
      instParamsResNet, instParamsAlexNet, instParamsVGG,
      instParamsSqueezeNet, instParamsDenseNet, instParamsInception3,
      nnLinear, nnConv2d, freshParam, NNLayer.params, List.all_map,
      Function.comp]

/-- Helper for C10: pairing a parameter list with itself never turns a
flag from off to on. -/
theorem zip_self_all_param (l : List Param) :
    (l.zip l).all (fun q => !q.1.requires_grad || q.2.requires_grad) =
      true := by
  induction l with
  | nil => rfl
  | cons p l ih =>
    rw [List.zip_cons_cons, List.all_cons, ih, Bool.and_true]
    cases hp : p.requires_grad <;> simp [hp]

/-- Helper for C10: pairing the frozen parameter list with the original
never turns a flag from off to on. -/
theorem zip_frozen_all_param (l : List Param) :
    ((l.map (fun p => { p with requires_grad := false })).zip l).all
      (fun q => !q.1.requires_grad || q.2.requires_grad) = true := by
  induction l with
  | nil => rfl
  | cons p l ih =>
    rw [List.map_cons, List.zip_cons_cons, List.all_cons, ih, Bool.and_true]
    rfl

/-- C10: `set_parameter_requires_grad` with `feature_extracting = False`
leaves the model entirely unchanged, and for either flag value the
function never sets a parameter's `requires_grad` to `True`: the
parameter list keeps its length, and any parameter whose flag is on
afterwards had it on before. -/
theorem set_parameter_requires_grad_frame {α : Type} [HasParams α]
    (m : α) (fe : Bool) :
    set_parameter_requires_grad m false = m ∧
    (HasParams.parameters (set_parameter_requires_grad m fe)).length =
      (HasParams.parameters m).length ∧
    ((HasParams.parameters (set_parameter_requires_grad m fe)).zip
        (HasParams.parameters m)).all
      (fun q => !q.1.requires_grad || q.2.requires_grad) = true := by
  refine ⟨rfl, ?_, ?_⟩
  · cases fe
    · rfl
    · show (HasParams.parameters (HasParams.mapParams
        (fun p => { p with requires_grad := false }) m)).length = _
      rw [HasParams.parameters_mapParams, List.length_map]
  · cases fe
    · exact zip_self_all_param (HasParams.parameters m)
    · show ((HasParams.parameters (HasParams.mapParams
        (fun p => { p with requires_grad := false }) m)).zip
          (HasParams.parameters m)).all _ = true
      rw [HasParams.parameters_mapParams]
      exact zip_frozen_all_param (HasParams.parameters m)

/-! ### Helpers for C7 -/

theorem NNLayer.in_features_mapParams (f : Param → Param) (l : NNLayer) :
    (l.mapParams f).in_features = l.in_features := by
  cases l <;> rfl

theorem map_strip_frozen (l : List Param) :
    (l.map (fun p => { p with requires_grad := false })).map stripP =
      (l.map stripP).map (fun p => { p with requires_grad := false }) := by
  simp only [List.map_map]
  rfl

theorem resnet_result_strip (m : ResNet) (n : ℕ) (fe : Bool) :
    ResNet.strip { set_parameter_requires_grad m fe with
      fc := nnLinear (set_parameter_requires_grad m fe).fc.in_features n } =
    { set_parameter_requires_grad m.strip fe with
      fc := nnLinear m.strip.fc.in_features n } := by
  cases fe
  · show (⟨(m.features.map stripP),
        (nnLinear m.fc.in_features n).mapParams stripP⟩ : ResNet) =
      ⟨m.features.map stripP, nnLinear (m.fc.mapParams stripP).in_features n⟩
    rw [NNLayer.in_features_mapParams]
    rfl
  · show (⟨(m.features.map (fun p => { p with requires_grad := false })).map
          stripP,
        (nnLinear (m.fc.mapParams
          (fun p => { p with requires_grad := false })).in_features
          n).mapParams stripP⟩ : ResNet) =
      ⟨(m.features.map stripP).map (fun p => { p with requires_grad := false }),
        nnLinear (m.fc.mapParams stripP).in_features n⟩
    rw [map_strip_frozen, NNLayer.in_features_mapParams,
      NNLayer.in_features_mapParams]
    rfl

theorem alexnet_result_strip (m : AlexNet) (n : ℕ) (fe : Bool) :
    AlexNet.strip { set_parameter_requires_grad m fe with
      classifier6 := nnLinear (set_parameter_requires_grad m
        fe).classifier6.in_features n } =
    { set_parameter_requires_grad m.strip fe with
      classifier6 := nnLinear m.strip.classifier6.in_features n } := by
  cases fe
  · show (⟨m.features.map stripP,
        (nnLinear m.classifier6.in_features n).mapParams stripP⟩ :
          AlexNet) =
      ⟨m.features.map stripP,
        nnLinear (m.classifier6.mapParams stripP).in_features n⟩
    rw [NNLayer.in_features_mapParams]
    rfl
  · show (⟨(m.features.map
          (fun p => { p with requires_grad := false })).map stripP,
        (nnLinear (m.classifier6.mapParams
          (fun p => { p with requires_grad := false })).in_features
          n).mapParams stripP⟩ : AlexNet) =
      ⟨(m.features.map stripP).map
          (fun p => { p with requires_grad := false }),
        nnLinear (m.classifier6.mapParams stripP).in_features n⟩
    rw [map_strip_frozen, NNLayer.in_features_mapParams,
      NNLayer.in_features_mapParams]
    rfl

theorem vgg_result_strip (m : VGG) (n : ℕ) (fe : Bool) :
    VGG.strip { set_parameter_requires_grad m fe with
      classifier6 := nnLinear (set_parameter_requires_grad m
        fe).classifier6.in_features n } =
    { set_parameter_requires_grad m.strip fe with
      classifier6 := nnLinear m.strip.classifier6.in_features n } := by
  cases fe
  · show (⟨m.features.map stripP,
        (nnLinear m.classifier6.in_features n).mapParams stripP⟩ : VGG) =
      ⟨m.features.map stripP,
        nnLinear (m.classifier6.mapParams stripP).in_features n⟩
    rw [NNLayer.in_features_mapParams]
    rfl
  · show (⟨(m.features.map
          (fun p => { p with requires_grad := false })).map stripP,
        (nnLinear (m.classifier6.mapParams
          (fun p => { p with requires_grad := false })).in_features
          n).mapParams stripP⟩ : VGG) =
      ⟨(m.features.map stripP).map
          (fun p => { p with requires_grad := false }),
        nnLinear (m.classifier6.mapParams stripP).in_features n⟩
    rw [map_strip_frozen, NNLayer.in_features_mapParams,
      NNLayer.in_features_mapParams]
    rfl

theorem squeezenet_result_strip (m : SqueezeNet) (n : ℕ) (fe : Bool) :
    SqueezeNet.strip { set_parameter_requires_grad m fe with
      classifier1 := nnConv2d 512 n (1, 1) (1, 1)
      num_classes := n } =
    { set_parameter_requires_grad m.strip fe with
      classifier1 := nnConv2d 512 n (1, 1) (1, 1)
      num_classes := n } := by
  cases fe
  · rfl
  · show (⟨(m.features.map
          (fun p => { p with requires_grad := false })).map stripP,
        (nnConv2d 512 n (1, 1) (1, 1)).mapParams stripP, n⟩ : SqueezeNet) =
      ⟨(m.features.map stripP).map
          (fun p => { p with requires_grad := false }),
        nnConv2d 512 n (1, 1) (1, 1), n⟩
    rw [map_strip_frozen]
    rfl

theorem densenet_result_strip (m : DenseNet) (n : ℕ) (fe : Bool) :
    DenseNet.strip { set_parameter_requires_grad m fe with
      classifier := nnLinear (set_parameter_requires_grad m
        fe).classifier.in_features n } =
    { set_parameter_requires_grad m.strip fe with
      classifier := nnLinear m.strip.classifier.in_features n } := by
  cases fe
  · show (⟨m.features.map stripP,
        (nnLinear m.classifier.in_features n).mapParams stripP⟩ :
          DenseNet) =
      ⟨m.features.map stripP,
        nnLinear (m.classifier.mapParams stripP).in_features n⟩
    rw [NNLayer.in_features_mapParams]
    rfl
  · show (⟨(m.features.map
          (fun p => { p with requires_grad := false })).map stripP,
        (nnLinear (m.classifier.mapParams
          (fun p => { p with requires_grad := false })).in_features
          n).mapParams stripP⟩ : DenseNet) =
      ⟨(m.features.map stripP).map
          (fun p => { p with requires_grad := false }),
        nnLinear (m.classifier.mapParams stripP).in_features n⟩
    rw [map_strip_frozen, NNLayer.in_features_mapParams,
      NNLayer.in_features_mapParams]
    rfl

theorem inception_result_strip (m : Inception3) (n : ℕ) (fe : Bool) :
    Inception3.strip
      { set_parameter_requires_grad m fe with
        auxLogits_fc := nnLinear (set_parameter_requires_grad m
          fe).auxLogits_fc.in_features n
        fc := nnLinear (set_parameter_requires_grad m fe).fc.in_features
          n } =
    { set_parameter_requires_grad m.strip fe with
      auxLogits_fc := nnLinear m.strip.auxLogits_fc.in_features n
      fc := nnLinear m.strip.fc.in_features n } := by
  cases fe
  · show (⟨m.features.map stripP,
        (nnLinear m.auxLogits_fc.in_features n).mapParams stripP,
        (nnLinear m.fc.in_features n).mapParams stripP⟩ : Inception3) =
      ⟨m.features.map stripP,
        nnLinear (m.auxLogits_fc.mapParams stripP).in_features n,
        nnLinear (m.fc.mapParams stripP).in_features n⟩
    rw [NNLayer.in_features_mapParams, NNLayer.in_features_mapParams]
    rfl
  · show (⟨(m.features.map
          (fun p => { p with requires_grad := false })).map stripP,
        (nnLinear (m.auxLogits_fc.mapParams
          (fun p => { p with requires_grad := false })).in_features
          n).mapParams stripP,
        (nnLinear (m.fc.mapParams
          (fun p => { p with requires_grad := false })).in_features
          n).mapParams stripP⟩ : Inception3) =
      ⟨(m.features.map stripP).map
          (fun p => { p with requires_grad := false }),
        nnLinear (m.auxLogits_fc.mapParams stripP).in_features n,
        nnLinear (m.fc.mapParams stripP).in_features n⟩
    rw [map_strip_frozen, NNLayer.in_features_mapParams,
      NNLayer.in_features_mapParams, NNLayer.in_features_mapParams,
      NNLayer.in_features_mapParams]
    rfl

/-- C7: assuming each zoo constructor returns, for both values of
`pretrained`, backbones that agree after erasing parameter values, then
for every name, `num_classes` and `feature_extract`, `initialize_model`
with `use_pretrained` true and with `use_pretrained` false produce
results that agree after erasing parameter values: same exit behaviour,
same head replacement, same input size. -/
theorem initialize_model_pretrained_agnostic (models : Models)
    (name : String) (n : ℕ) (fe : Bool)
    (h1 : (models.resnet18 true).strip = (models.resnet18 false).strip)
    (h2 : (models.alexnet true).strip = (models.alexnet false).strip)
    (h3 : (models.vgg11_bn true).strip = (models.vgg11_bn false).strip)
    (h4 : (models.squeezenet1_0 true).strip =
      (models.squeezenet1_0 false).strip)
    (h5 : (models.densenet121 true).strip = (models.densenet121 false).strip)
    (h6 : (models.inception_v3 true).strip =
      (models.inception_v3 false).strip) :
    stripResult (initialize_model models name n fe true) =
      stripResult (initialize_model models name n fe false) := by
  unfold initialize_model
  split_ifs
  · simp only [stripResult, TVModel.strip]
    rw [resnet_result_strip, resnet_result_strip, h1]
  · simp only [stripResult, TVModel.strip]
    rw [alexnet_result_strip, alexnet_result_strip, h2]
  · simp only [stripResult, TVModel.strip]
    rw [vgg_result_strip, vgg_result_strip, h3]
  · simp only [stripResult, TVModel.strip]
    rw [squeezenet_result_strip, squeezenet_result_strip, h4]
  · simp only [stripResult, TVModel.strip]
    rw [densenet_result_strip, densenet_result_strip, h5]
  · simp only [stripResult, TVModel.strip]
    rw [inception_result_strip, inception_result_strip, h6]
  · rfl

/-- Witness: `initialize_model_pretrained_agnostic` applied at the
concrete zoo, with its hypotheses discharged. -/
theorem initialize_model_pretrained_agnostic_witness :
    ((demoModels.resnet18 true).strip = (demoModels.resnet18 false).strip ∧
     (demoModels.alexnet true).strip = (demoModels.alexnet false).strip ∧
     (demoModels.vgg11_bn true).strip = (demoModels.vgg11_bn false).strip ∧
     (demoModels.squeezenet1_0 true).strip =
       (demoModels.squeezenet1_0 false).strip ∧
     (demoModels.densenet121 true).strip =
       (demoModels.densenet121 false).strip ∧
     (demoModels.inception_v3 true).strip =
       (demoModels.inception_v3 false).strip) ∧
    stripResult (initialize_model demoModels "resnet" 2 true true) =
      stripResult (initialize_model demoModels "resnet" 2 true false) :=
  ⟨⟨by decide, by decide, by decide, by decide, by decide, by decide⟩,
    initialize_model_pretrained_agnostic demoModels "resnet" 2 true
      (by decide) (by decide) (by decide) (by decide) (by decide)
      (by decide)⟩

end TrainModels
